import Mathlib

/-
Verification of the Agent Orchestrator of the multi-agent finance
assistant (src/orchestrator/agent_orchestrator.py).

The orchestrator is embedded shallowly:
  * Python values flowing through the pipeline are modelled by `Val`
    (None, strings, integers, booleans, lists, dicts).
  * Every collaborator agent's `process` method is an oracle
    `Obj → Except String Obj`: `Except.ok` models a normal return of a
    dict, `Except.error` models the call raising an exception whose
    `str()` is the carried message.
  * `await`-sequencing with Python `try`/`except` is modelled by the
    monad `M`, a state-and-exception monad over a trace of call events;
    each agent call appends an issue event and a settle event, so the
    theorems can speak about which calls were made and in which order.
-/

namespace FinAssistant

/-- Shallow model of the Python values the orchestrator passes around. -/
inductive Val where
  | vnone : Val
  | str : String → Val
  | num : Int → Val
  | bool : Bool → Val
  | list : List Val → Val
  | dict : List (String × Val) → Val

/-- A Python dict with string keys, as an association list. -/
abbrev Obj := List (String × Val)

/-- `lookup o k` models `o[k]`-style key lookup (`None`-free: `Option`). -/
def lookup : Obj → String → Option Val
  | [], _ => none
  | (k, v) :: rest, key => if k = key then some v else lookup rest key

/-- `getD o k d` models Python `o.get(k, d)`. -/
def getD (o : Obj) (k : String) (d : Val) : Val :=
  (lookup o k).getD d

/-- `hasKey o k` models Python `k in o`. -/
def hasKey (o : Obj) (k : String) : Bool :=
  (lookup o k).isSome

/-- `v.isStr s` models the Python comparison `v == s` for a string literal. -/
def Val.isStr : Val → String → Bool
  | .str t, s => t == s
  | _, _ => false

/-- Rendering of a value into an exception message (`str(v)` where only
the string case matters to the claims). -/
def Val.toMsg : Val → String
  | .str s => s
  | _ => "value"

/-- Python dict assignment `o[k] = v`: replace the value if the key is
present, else append the new binding. -/
def insertKey (o : Obj) (k : String) (v : Val) : Obj :=
  if hasKey o k then o.map (fun p => if p.1 = k then (k, v) else p)
  else o ++ [(k, v)]

/-- The six collaborator agents the orchestrator holds. -/
inductive Role where
  | market | scraper | vector | analyzer | language | voice

/-- An observable event: an agent call being issued, and that call
settling (returning or raising). -/
inductive Event where
  | issue : Role → Obj → Event
  | settle : Role → Obj → Event

abbrev Trace := List Event

/-- Behaviour of the collaborator agents' `process` methods.  `Except.ok`
is a normal return, `Except.error` is the call raising. -/
structure Agents where
  market_data_agent : Obj → Except String Obj
  web_scraper : Obj → Except String Obj
  vector_store : Obj → Except String Obj
  financial_analyzer : Obj → Except String Obj
  language_processor : Obj → Except String Obj
  voice_processor : Obj → Except String Obj

/-- Dispatch a role to its agent's behaviour. -/
def roleFn (ag : Agents) : Role → Obj → Except String Obj
  | .market => ag.market_data_agent
  | .scraper => ag.web_scraper
  | .vector => ag.vector_store
  | .analyzer => ag.financial_analyzer
  | .language => ag.language_processor
  | .voice => ag.voice_processor

/-- The orchestrator's effect monad: a call trace threaded through the
computation, plus Python exceptions as `Except.error`. -/
def M (α : Type) : Type := Trace → Except String α × Trace

instance : Monad M where
  pure a := fun t => (Except.ok a, t)
  bind x f := fun t =>
    match x t with
    | (Except.ok a, u) => f a u
    | (Except.error e, u) => (Except.error e, u)

/-- `raise`-style exception. -/
def raiseExc {α : Type} (msg : String) : M α :=
  fun t => (Except.error msg, t)

/-- Python `try: body except Exception as e: handler e`. -/
def attempt {α : Type} (body : M α) (handler : String → M α) : M α :=
  fun t =>
    match body t with
    | (Except.ok a, u) => (Except.ok a, u)
    | (Except.error e, u) => handler e u

/-- One awaited agent call: the issue and the settling of the call are
recorded on the trace whether the call returns or raises. -/
def call (ag : Agents) (r : Role) (req : Obj) : M Obj :=
  fun t =>
    match roleFn ag r req with
    | Except.ok o => (Except.ok o, t ++ [Event.issue r req, Event.settle r req])
    | Except.error e => (Except.error e, t ++ [Event.issue r req, Event.settle r req])

/-- Python subscript `o[k]`: raises `KeyError` when the key is absent. -/
def subscript (o : Obj) (k : String) : M Val :=
  fun t =>
    match lookup o k with
    | some v => (Except.ok v, t)
    | none => (Except.error ("KeyError: " ++ k), t)

/-- The orchestrator object state: only `agents_initialized` matters. -/
structure AgentOrchestrator where
  agents_initialized : Bool

/-- `AgentOrchestrator.__init__` sets `agents_initialized = False`. -/
def AgentOrchestrator.new : AgentOrchestrator := ⟨false⟩

/-- Behaviour of the six agents' own `initialize()` coroutines:
`Except.ok b` is a normal return of `b`, `Except.error` is a raise. -/
structure InitBehavior where
  market_data_agent : Except String Bool
  web_scraper : Except String Bool
  vector_store : Except String Bool
  financial_analyzer : Except String Bool
  language_processor : Except String Bool
  voice_processor : Except String Bool

/-- `asyncio.gather` over the six initializations: the list of results,
or the exception if any of them raises. -/
def seqInit (b : InitBehavior) : Except String (List Bool) := do
  let r1 ← b.market_data_agent
  let r2 ← b.web_scraper
  let r3 ← b.vector_store
  let r4 ← b.financial_analyzer
  let r5 ← b.language_processor
  let r6 ← b.voice_processor
  pure [r1, r2, r3, r4, r5, r6]

/-- `AgentOrchestrator.initialize`: gathers all six agent
initializations; on success stores `all(init_results)` into
`agents_initialized` and returns it; on an exception logs and returns
`False`, leaving the flag untouched. -/
def initAgents (st : AgentOrchestrator) (b : InitBehavior) :
    Bool × AgentOrchestrator :=
  match seqInit b with
  | Except.ok rs =>
    let ok := rs.all (fun x => x)
    (ok, { agents_initialized := ok })
  | Except.error _ => (false, st)

/-- `AgentOrchestrator.cleanup`: gathers the agents' cleanups and
swallows any exception; it does not touch `agents_initialized`. -/
def cleanupAgents (st : AgentOrchestrator) : AgentOrchestrator := st

/-- The hardcoded symbol list of `_gather_market_data`. -/
def symbolsV : Val :=
  Val.list [Val.str "AAPL", Val.str "TSMC", Val.str "SAMSUNG"]

/-- Request of the first `market_data_agent.process` call. -/
def stockReq : Obj :=
  [("query_type", Val.str "stock_data"), ("symbols", symbolsV)]

/-- Request of the second `market_data_agent.process` call. -/
def earningsReq : Obj :=
  [("query_type", Val.str "earnings"), ("symbols", symbolsV)]

/-- Request of the `web_scraper.process` call. -/
def newsReq : Obj :=
  [("scrape_type", Val.str "market_news"), ("limit", Val.num 5)]

/-- Request of the `vector_store.process` call. -/
def vectorReq (q : Val) : Obj :=
  [("operation", Val.str "search"), ("query", q), ("k", Val.num 3)]

/-- Request of the `market_sentiment` analyzer call. -/
def sentimentReq (market_data context_data : Obj) : Obj :=
  [("analysis_type", Val.str "market_sentiment"),
   ("market_data", getD market_data "market_data" (Val.dict [])),
   ("news_data", getD context_data "news" (Val.list []))]

/-- Request of the `portfolio_risk` analyzer call. -/
def riskReq (market_data : Obj) : Obj :=
  [("analysis_type", Val.str "portfolio_risk"),
   ("portfolio", getD market_data "market_data" (Val.dict [])),
   ("market_data", Val.dict market_data)]

/-- Request of the `earnings_analysis` analyzer call. -/
def earningsAnalysisReq (market_data : Obj) : Obj :=
  [("analysis_type", Val.str "earnings_analysis"),
   ("earnings_data", getD market_data "earnings_data" (Val.list [])),
   ("market_expectations", Val.dict [])]

/-- Request of the `language_processor.process` call. -/
def briefReq (q : Val) (context_data : Obj) (market_data analysis_result : Obj) : Obj :=
  [("task_type", Val.str "market_brief"),
   ("market_data", Val.dict market_data),
   ("context", Val.dict
     [("query", q),
      ("news", getD context_data "news" (Val.list [])),
      ("analysis", Val.dict analysis_result)])]

/-- Request of the speech-to-text voice call. -/
def sttReq (query_data : Obj) : Obj :=
  [("operation", Val.str "stt"),
   ("audio_data", getD query_data "audio_data" Val.vnone)]

/-- Request of the text-to-speech voice call. -/
def ttsReq (content : Val) : Obj :=
  [("operation", Val.str "tts"), ("text", content)]

/-- `AgentOrchestrator._gather_market_data`. -/
def gather_market_data (ag : Agents) (_q : Val) : M Obj :=
  attempt
    (do
      let market_data ← call ag Role.market stockReq
      let earnings_data ← call ag Role.market earningsReq
      pure [("market_data", getD market_data "data" (Val.dict [])),
            ("earnings_data", getD earnings_data "earnings" (Val.dict []))])
    (fun _ => pure [])

/-- `AgentOrchestrator._gather_context`. -/
def gather_context (ag : Agents) (q : Val) : M Obj :=
  attempt
    (do
      let news_data ← call ag Role.scraper newsReq
      let vector_results ← call ag Role.vector (vectorReq q)
      pure [("news", getD news_data "articles" (Val.list [])),
            ("relevant_docs", getD vector_results "results" (Val.list []))])
    (fun _ => pure [])

/-- `AgentOrchestrator._analyze_data`. -/
def analyze_data (ag : Agents) (market_data context_data : Obj) : M Obj :=
  attempt
    (do
      let sentiment ← call ag Role.analyzer (sentimentReq market_data context_data)
      let risk ← call ag Role.analyzer (riskReq market_data)
      let earnings ← call ag Role.analyzer (earningsAnalysisReq market_data)
      pure [("sentiment", Val.dict sentiment),
            ("risk", Val.dict risk),
            ("earnings", Val.dict earnings)])
    (fun _ => pure [])

/-- `AgentOrchestrator._generate_response`; `now` stands for
`datetime.now().isoformat()`. -/
def generate_response (ag : Agents) (now : String) (q : Val)
    (market_data context_data analysis_result : Obj) : M Obj :=
  attempt
    (do
      let response ← call ag Role.language (briefReq q context_data market_data analysis_result)
      pure [("content", getD response "brief" (Val.str "Unable to generate response")),
            ("confidence", getD response "confidence" (Val.num 0)),
            ("sources", getD response "sources" (Val.list [])),
            ("timestamp", Val.str now)])
    (fun e => pure
      [("content", Val.str "I apologize, but I encountered an error while generating the response."),
       ("error", Val.str e)])

/-- The middle of `process_query` once the effective query text is
known: gather, analyze, narrate, then the text-to-speech postlude when
`response_type == "voice"`. -/
def run_pipeline (ag : Agents) (now : String) (response_type query : Val) : M Obj := do
  let market_data ← gather_market_data ag query
  let context_data ← gather_context ag query
  let analysis_result ← analyze_data ag market_data context_data
  let response ← generate_response ag now query market_data context_data analysis_result
  let response ←
    (if response_type.isStr "voice" then do
      let content ← subscript response "content"
      let voice_result ← call ag Role.voice (ttsReq content)
      let _ ← (if hasKey voice_result "error" then
          raiseExc ("Text-to-speech error: " ++
            Val.toMsg (getD voice_result "error" Val.vnone))
        else pure PUnit.unit)
      let audio ← subscript voice_result "audio_data"
      let rate ← subscript voice_result "sample_rate"
      pure (insertKey (insertKey response "audio_data" audio) "sample_rate" rate)
    else pure response)
  pure response

/-- `AgentOrchestrator.process_query`, as a trace-monad computation.
The outer `attempt` is the method's top-level `try`/`except`, whose
handler returns the dict with just the single `error` key. -/
def process_query_m (ag : Agents) (st : AgentOrchestrator) (now : String)
    (query_data : Obj) : M Obj :=
  attempt
    (do
      let _ ← (if st.agents_initialized = false then
          raiseExc "Agents not initialized"
        else pure PUnit.unit)
      let query := getD query_data "query" (Val.str "")
      let input_type := getD query_data "input_type" (Val.str "text")
      let response_type := getD query_data "response_type" (Val.str "text")
      let query ←
        (if input_type.isStr "voice" then do
          let stt_result ← call ag Role.voice (sttReq query_data)
          let _ ← (if hasKey stt_result "error" then
              raiseExc ("Speech-to-text error: " ++
                Val.toMsg (getD stt_result "error" Val.vnone))
            else pure PUnit.unit)
          subscript stt_result "text"
        else pure query)
      run_pipeline ag now response_type query)
    (fun e => pure [("error", Val.str e)])

/-- `process_query` run on an empty trace: the returned envelope and the
calls that were made. -/
def process_query (ag : Agents) (st : AgentOrchestrator) (now : String)
    (query_data : Obj) : Obj × Trace :=
  match process_query_m ag st now query_data [] with
  | (Except.ok r, t) => (r, t)
  | (Except.error e, t) => ([("error", Val.str e)], t)

/-- Is the event the issuing of a call? -/
def Event.isIssue : Event → Bool
  | .issue _ _ => true
  | .settle _ _ => false

/-- A trace is sequential when calls strictly alternate issue/settle:
at every moment at most one call is outstanding, and every issued call
has settled by the end of the trace. -/
def seqTrace : Trace → Bool
  | [] => true
  | Event.issue _ _ :: Event.settle _ _ :: rest => seqTrace rest
  | _ => false

/-- How many calls had been issued by the time the first call settled.
Sibling calls are issued concurrently precisely when all of them are
issued before any of them settles. -/
def issuesBeforeFirstSettle (t : Trace) : Nat :=
  (t.takeWhile Event.isIssue).length

theorem seqTrace_append :
    ∀ (a b : Trace), seqTrace a = true → seqTrace b = true →
      seqTrace (a ++ b) = true
  | [], _, _, hb => hb
  | Event.issue _ _ :: Event.settle _ _ :: rest, b, ha, hb => by
      simpa [seqTrace] using
        seqTrace_append rest b (by simpa [seqTrace] using ha) hb
  | [Event.issue _ _], _, ha, _ => by simp [seqTrace] at ha
  | Event.issue _ _ :: Event.issue _ _ :: _, _, ha, _ => by
      simp [seqTrace] at ha
  | Event.settle _ _ :: _, _, ha, _ => by simp [seqTrace] at ha

theorem lookup_map_isSome (o : Obj) (k k2 : String) (v : Val)
    (h : (lookup o k).isSome = true) :
    (lookup (o.map fun p => if p.1 = k2 then (k2, v) else p) k).isSome = true := by
  induction o with
  | nil => simp [lookup] at h
  | cons p rest ih =>
    rcases p with ⟨pk, pv⟩
    simp only [List.map_cons]
    by_cases hk2 : pk = k2
    · rw [show (if (pk, pv).1 = k2 then (k2, v) else (pk, pv)) = (k2, v) by
        simp [hk2]]
      by_cases hk : pk = k
      · simp [lookup, hk2.symm.trans hk]
      · simp only [lookup]
        rw [if_neg (fun e => hk (hk2.trans e))]
        apply ih
        simpa [lookup, hk] using h
    · rw [show (if (pk, pv).1 = k2 then (k2, v) else (pk, pv)) = (pk, pv) by
        simp [hk2]]
      by_cases hk : pk = k
      · simp [lookup, hk]
      · simp only [lookup]
        rw [if_neg hk]
        apply ih
        simpa [lookup, hk] using h

theorem lookup_append_isSome (o tail : Obj) (k : String)
    (h : (lookup o k).isSome = true) :
    (lookup (o ++ tail) k).isSome = true := by
  induction o with
  | nil => simp [lookup] at h
  | cons p rest ih =>
    rcases p with ⟨pk, pv⟩
    by_cases hk : pk = k
    · simp [lookup, hk]
    · simp only [List.cons_append, lookup, hk, if_neg, not_false_iff]
      apply ih
      simpa [lookup, hk] using h

theorem hasKey_insertKey {o : Obj} {k k2 : String} {v : Val}
    (h : hasKey o k = true) : hasKey (insertKey o k2 v) k = true := by
  unfold insertKey
  by_cases h2 : hasKey o k2
  · rw [if_pos h2]
    exact lookup_map_isSome o k k2 v h
  · rw [if_neg h2]
    exact lookup_append_isSome o [(k2, v)] k h

theorem M_bind_apply {α β : Type} (x : M α) (f : α → M β) (t : Trace) :
    (x >>= f) t = match x t with
      | (Except.ok a, u) => f a u
      | (Except.error e, u) => (Except.error e, u) := rfl

theorem M_pure_apply {α : Type} (a : α) (t : Trace) :
    (pure a : M α) t = (Except.ok a, t) := rfl

theorem attempt_apply {α : Type} (body : M α) (handler : String → M α) (t : Trace) :
    attempt body handler t = match body t with
      | (Except.ok a, u) => (Except.ok a, u)
      | (Except.error e, u) => handler e u := rfl

theorem gmd_err1 (ag : Agents) (q : Val) (t : Trace) (e : String)
    (h : ag.market_data_agent stockReq = Except.error e) :
    gather_market_data ag q t =
      (Except.ok [],
       t ++ [Event.issue Role.market stockReq, Event.settle Role.market stockReq]) := by
  unfold gather_market_data
  simp only [attempt_apply, M_bind_apply, M_pure_apply, call, roleFn, h]

theorem gmd_err2 (ag : Agents) (q : Val) (t : Trace) (md : Obj) (e : String)
    (h1 : ag.market_data_agent stockReq = Except.ok md)
    (h2 : ag.market_data_agent earningsReq = Except.error e) :
    gather_market_data ag q t =
      (Except.ok [],
       t ++ [Event.issue Role.market stockReq, Event.settle Role.market stockReq,
             Event.issue Role.market earningsReq, Event.settle Role.market earningsReq]) := by
  unfold gather_market_data
  simp only [attempt_apply, M_bind_apply, M_pure_apply, call, roleFn, h1, h2]
  simp

theorem gmd_ok (ag : Agents) (q : Val) (t : Trace) (md ed : Obj)
    (h1 : ag.market_data_agent stockReq = Except.ok md)
    (h2 : ag.market_data_agent earningsReq = Except.ok ed) :
    gather_market_data ag q t =
      (Except.ok [("market_data", getD md "data" (Val.dict [])),
                  ("earnings_data", getD ed "earnings" (Val.dict []))],
       t ++ [Event.issue Role.market stockReq, Event.settle Role.market stockReq,
             Event.issue Role.market earningsReq, Event.settle Role.market earningsReq]) := by
  unfold gather_market_data
  simp only [attempt_apply, M_bind_apply, M_pure_apply, call, roleFn, h1, h2]
  simp

theorem gmd_shape (ag : Agents) (q : Val) (t : Trace) :
    ∃ r d, gather_market_data ag q t = (Except.ok r, t ++ d) ∧ seqTrace d = true := by
  cases h1 : ag.market_data_agent stockReq with
  | error e => exact ⟨_, _, gmd_err1 ag q t e h1, by rfl⟩
  | ok md =>
    cases h2 : ag.market_data_agent earningsReq with
    | error e => exact ⟨_, _, gmd_err2 ag q t md e h1 h2, by rfl⟩
    | ok ed => exact ⟨_, _, gmd_ok ag q t md ed h1 h2, by rfl⟩

theorem gc_err1 (ag : Agents) (q : Val) (t : Trace) (e : String)
    (h : ag.web_scraper newsReq = Except.error e) :
    gather_context ag q t =
      (Except.ok [],
       t ++ [Event.issue Role.scraper newsReq, Event.settle Role.scraper newsReq]) := by
  unfold gather_context
  simp only [attempt_apply, M_bind_apply, M_pure_apply, call, roleFn, h]

theorem gc_err2 (ag : Agents) (q : Val) (t : Trace) (nd : Obj) (e : String)
    (h1 : ag.web_scraper newsReq = Except.ok nd)
    (h2 : ag.vector_store (vectorReq q) = Except.error e) :
    gather_context ag q t =
      (Except.ok [],
       t ++ [Event.issue Role.scraper newsReq, Event.settle Role.scraper newsReq,
             Event.issue Role.vector (vectorReq q), Event.settle Role.vector (vectorReq q)]) := by
  unfold gather_context
  simp only [attempt_apply, M_bind_apply, M_pure_apply, call, roleFn, h1, h2]
  simp

theorem gc_ok (ag : Agents) (q : Val) (t : Trace) (nd vr : Obj)
    (h1 : ag.web_scraper newsReq = Except.ok nd)
    (h2 : ag.vector_store (vectorReq q) = Except.ok vr) :
    gather_context ag q t =
      (Except.ok [("news", getD nd "articles" (Val.list [])),
                  ("relevant_docs", getD vr "results" (Val.list []))],
       t ++ [Event.issue Role.scraper newsReq, Event.settle Role.scraper newsReq,
             Event.issue Role.vector (vectorReq q), Event.settle Role.vector (vectorReq q)]) := by
  unfold gather_context
  simp only [attempt_apply, M_bind_apply, M_pure_apply, call, roleFn, h1, h2]
  simp

theorem gc_shape (ag : Agents) (q : Val) (t : Trace) :
    ∃ r d, gather_context ag q t = (Except.ok r, t ++ d) ∧ seqTrace d = true := by
  cases h1 : ag.web_scraper newsReq with
  | error e => exact ⟨_, _, gc_err1 ag q t e h1, by rfl⟩
  | ok nd =>
    cases h2 : ag.vector_store (vectorReq q) with
    | error e => exact ⟨_, _, gc_err2 ag q t nd e h1 h2, by rfl⟩
    | ok vr => exact ⟨_, _, gc_ok ag q t nd vr h1 h2, by rfl⟩

theorem ad_err1 (ag : Agents) (md cd : Obj) (t : Trace) (e : String)
    (h : ag.financial_analyzer (sentimentReq md cd) = Except.error e) :
    analyze_data ag md cd t =
      (Except.ok [],
       t ++ [Event.issue Role.analyzer (sentimentReq md cd),
             Event.settle Role.analyzer (sentimentReq md cd)]) := by
  unfold analyze_data
  simp only [attempt_apply, M_bind_apply, M_pure_apply, call, roleFn, h]

theorem ad_err2 (ag : Agents) (md cd : Obj) (t : Trace) (s : Obj) (e : String)
    (h1 : ag.financial_analyzer (sentimentReq md cd) = Except.ok s)
    (h2 : ag.financial_analyzer (riskReq md) = Except.error e) :
    analyze_data ag md cd t =
      (Except.ok [],
       t ++ [Event.issue Role.analyzer (sentimentReq md cd),
             Event.settle Role.analyzer (sentimentReq md cd),
             Event.issue Role.analyzer (riskReq md),
             Event.settle Role.analyzer (riskReq md)]) := by
  unfold analyze_data
  simp only [attempt_apply, M_bind_apply, M_pure_apply, call, roleFn, h1, h2]
  simp

theorem ad_err3 (ag : Agents) (md cd : Obj) (t : Trace) (s r : Obj) (e : String)
    (h1 : ag.financial_analyzer (sentimentReq md cd) = Except.ok s)
    (h2 : ag.financial_analyzer (riskReq md) = Except.ok r)
    (h3 : ag.financial_analyzer (earningsAnalysisReq md) = Except.error e) :
    analyze_data ag md cd t =
      (Except.ok [],
       t ++ [Event.issue Role.analyzer (sentimentReq md cd),
             Event.settle Role.analyzer (sentimentReq md cd),
             Event.issue Role.analyzer (riskReq md),
             Event.settle Role.analyzer (riskReq md),
             Event.issue Role.analyzer (earningsAnalysisReq md),
             Event.settle Role.analyzer (earningsAnalysisReq md)]) := by
  unfold analyze_data
  simp only [attempt_apply, M_bind_apply, M_pure_apply, call, roleFn, h1, h2, h3]
  simp

theorem ad_ok (ag : Agents) (md cd : Obj) (t : Trace) (s r er : Obj)
    (h1 : ag.financial_analyzer (sentimentReq md cd) = Except.ok s)
    (h2 : ag.financial_analyzer (riskReq md) = Except.ok r)
    (h3 : ag.financial_analyzer (earningsAnalysisReq md) = Except.ok er) :
    analyze_data ag md cd t =
      (Except.ok [("sentiment", Val.dict s), ("risk", Val.dict r),
                  ("earnings", Val.dict er)],
       t ++ [Event.issue Role.analyzer (sentimentReq md cd),
             Event.settle Role.analyzer (sentimentReq md cd),
             Event.issue Role.analyzer (riskReq md),
             Event.settle Role.analyzer (riskReq md),
             Event.issue Role.analyzer (earningsAnalysisReq md),
             Event.settle Role.analyzer (earningsAnalysisReq md)]) := by
  unfold analyze_data
  simp only [attempt_apply, M_bind_apply, M_pure_apply, call, roleFn, h1, h2, h3]
  simp

theorem ad_shape (ag : Agents) (md cd : Obj) (t : Trace) :
    ∃ r d, analyze_data ag md cd t = (Except.ok r, t ++ d) ∧ seqTrace d = true := by
  cases h1 : ag.financial_analyzer (sentimentReq md cd) with
  | error e => exact ⟨_, _, ad_err1 ag md cd t e h1, by rfl⟩
  | ok s =>
    cases h2 : ag.financial_analyzer (riskReq md) with
    | error e => exact ⟨_, _, ad_err2 ag md cd t s e h1 h2, by rfl⟩
    | ok r =>
      cases h3 : ag.financial_analyzer (earningsAnalysisReq md) with
      | error e => exact ⟨_, _, ad_err3 ag md cd t s r e h1 h2 h3, by rfl⟩
      | ok er => exact ⟨_, _, ad_ok ag md cd t s r er h1 h2 h3, by rfl⟩

theorem gr_lang_ok (ag : Agents) (now : String) (q : Val) (md cd ar : Obj)
    (t : Trace) (o : Obj)
    (h : ag.language_processor (briefReq q cd md ar) = Except.ok o) :
    generate_response ag now q md cd ar t =
      (Except.ok [("content", getD o "brief" (Val.str "Unable to generate response")),
                  ("confidence", getD o "confidence" (Val.num 0)),
                  ("sources", getD o "sources" (Val.list [])),
                  ("timestamp", Val.str now)],
       t ++ [Event.issue Role.language (briefReq q cd md ar),
             Event.settle Role.language (briefReq q cd md ar)]) := by
  unfold generate_response
  simp only [attempt_apply, M_bind_apply, M_pure_apply, call, roleFn, h]

theorem gr_lang_err (ag : Agents) (now : String) (q : Val) (md cd ar : Obj)
    (t : Trace) (e : String)
    (h : ag.language_processor (briefReq q cd md ar) = Except.error e) :
    generate_response ag now q md cd ar t =
      (Except.ok
        [("content", Val.str "I apologize, but I encountered an error while generating the response."),
         ("error", Val.str e)],
       t ++ [Event.issue Role.language (briefReq q cd md ar),
             Event.settle Role.language (briefReq q cd md ar)]) := by
  unfold generate_response
  simp only [attempt_apply, M_bind_apply, M_pure_apply, call, roleFn, h]

theorem gr_shape (ag : Agents) (now : String) (q : Val) (md cd ar : Obj) (t : Trace) :
    ∃ r d, generate_response ag now q md cd ar t = (Except.ok r, t ++ d) ∧
      seqTrace d = true ∧ hasKey r "content" = true := by
  cases h : ag.language_processor (briefReq q cd md ar) with
  | error e => exact ⟨_, _, gr_lang_err ag now q md cd ar t e h, by rfl, by rfl⟩
  | ok o => exact ⟨_, _, gr_lang_ok ag now q md cd ar t o h, by rfl, by rfl⟩

/-- A computation only ever appends a sequential block of events to the
incoming trace: whatever it does, calls strictly alternate issue/settle,
so no two of its calls are ever outstanding at the same time. -/
def TraceExtending {α : Type} (m : M α) : Prop :=
  ∀ t, ∃ res d, m t = (res, t ++ d) ∧ seqTrace d = true

theorem traceExtending_pure {α : Type} (a : α) : TraceExtending (pure a : M α) :=
  fun t => ⟨Except.ok a, [], by simp [M_pure_apply], rfl⟩

theorem traceExtending_raiseExc {α : Type} (msg : String) :
    TraceExtending (raiseExc msg : M α) :=
  fun t => ⟨Except.error msg, [], by simp [raiseExc], rfl⟩

theorem traceExtending_call (ag : Agents) (r : Role) (req : Obj) :
    TraceExtending (call ag r req) := by
  intro t
  unfold call
  cases roleFn ag r req with
  | ok o => exact ⟨Except.ok o, [Event.issue r req, Event.settle r req], rfl, rfl⟩
  | error e => exact ⟨Except.error e, [Event.issue r req, Event.settle r req], rfl, rfl⟩

theorem traceExtending_subscript (o : Obj) (k : String) :
    TraceExtending (subscript o k) := by
  intro t
  unfold subscript
  cases lookup o k with
  | some v => exact ⟨Except.ok v, [], by simp, rfl⟩
  | none => exact ⟨Except.error ("KeyError: " ++ k), [], by simp, rfl⟩

theorem traceExtending_bind {α β : Type} {x : M α} {f : α → M β}
    (hx : TraceExtending x) (hf : ∀ a, TraceExtending (f a)) :
    TraceExtending (x >>= f) := by
  intro t
  obtain ⟨res, d, hx1, hx2⟩ := hx t
  cases res with
  | ok a =>
    obtain ⟨res2, d2, hf1, hf2⟩ := hf a (t ++ d)
    exact ⟨res2, d ++ d2, by simp [M_bind_apply, hx1, hf1],
      seqTrace_append d d2 hx2 hf2⟩
  | error e => exact ⟨Except.error e, d, by simp [M_bind_apply, hx1], hx2⟩

theorem traceExtending_attempt {α : Type} {body : M α} {handler : String → M α}
    (hb : TraceExtending body) (hh : ∀ e, TraceExtending (handler e)) :
    TraceExtending (attempt body handler) := by
  intro t
  obtain ⟨res, d, hb1, hb2⟩ := hb t
  cases res with
  | ok a => exact ⟨Except.ok a, d, by simp [attempt_apply, hb1], hb2⟩
  | error e =>
    obtain ⟨res2, d2, hh1, hh2⟩ := hh e (t ++ d)
    exact ⟨res2, d ++ d2, by simp [attempt_apply, hb1, hh1],
      seqTrace_append d d2 hb2 hh2⟩

theorem traceExtending_ite {α : Type} (c : Prop) [Decidable c] {x y : M α}
    (hx : TraceExtending x) (hy : TraceExtending y) :
    TraceExtending (if c then x else y) := by
  by_cases h : c
  · simpa [h] using hx
  · simpa [h] using hy

theorem traceExtending_gather_market_data (ag : Agents) (q : Val) :
    TraceExtending (gather_market_data ag q) := by
  intro t
  obtain ⟨r, d, h1, h2⟩ := gmd_shape ag q t
  exact ⟨Except.ok r, d, h1, h2⟩

theorem traceExtending_gather_context (ag : Agents) (q : Val) :
    TraceExtending (gather_context ag q) := by
  intro t
  obtain ⟨r, d, h1, h2⟩ := gc_shape ag q t
  exact ⟨Except.ok r, d, h1, h2⟩

theorem traceExtending_analyze_data (ag : Agents) (md cd : Obj) :
    TraceExtending (analyze_data ag md cd) := by
  intro t
  obtain ⟨r, d, h1, h2⟩ := ad_shape ag md cd t
  exact ⟨Except.ok r, d, h1, h2⟩

theorem traceExtending_generate_response (ag : Agents) (now : String) (q : Val)
    (md cd ar : Obj) : TraceExtending (generate_response ag now q md cd ar) := by
  intro t
  obtain ⟨r, d, h1, h2, _⟩ := gr_shape ag now q md cd ar t
  exact ⟨Except.ok r, d, h1, h2⟩

theorem traceExtending_run_pipeline (ag : Agents) (now : String)
    (rt q : Val) : TraceExtending (run_pipeline ag now rt q) := by
  unfold run_pipeline
  apply traceExtending_bind
  · exact traceExtending_gather_market_data ag q
  · intro market_data
    apply traceExtending_bind
    · exact traceExtending_gather_context ag q
    · intro context_data
      apply traceExtending_bind
      · exact traceExtending_analyze_data ag market_data context_data
      · intro analysis_result
        apply traceExtending_bind
        · exact traceExtending_generate_response ag now q market_data
            context_data analysis_result
        · intro response
          apply traceExtending_bind
          · apply traceExtending_ite
            · apply traceExtending_bind
              · exact traceExtending_subscript response "content"
              · intro content
                apply traceExtending_bind
                · exact traceExtending_call ag Role.voice (ttsReq content)
                · intro voice_result
                  apply traceExtending_bind
                  · exact traceExtending_ite _ (traceExtending_raiseExc _)
                      (traceExtending_pure _)
                  · intro _
                    apply traceExtending_bind
                    · exact traceExtending_subscript voice_result "audio_data"
                    · intro audio
                      apply traceExtending_bind
                      · exact traceExtending_subscript voice_result "sample_rate"
                      · intro rate
                        exact traceExtending_pure _
            · exact traceExtending_pure _
          · intro response2
            exact traceExtending_pure _

theorem traceExtending_process_query_m (ag : Agents) (st : AgentOrchestrator)
    (now : String) (qd : Obj) : TraceExtending (process_query_m ag st now qd) := by
  unfold process_query_m
  apply traceExtending_attempt
  · apply traceExtending_bind
    · exact traceExtending_ite _ (traceExtending_raiseExc _) (traceExtending_pure _)
    · intro _
      apply traceExtending_bind
      · apply traceExtending_ite
        · apply traceExtending_bind
          · exact traceExtending_call ag Role.voice (sttReq qd)
          · intro stt_result
            apply traceExtending_bind
            · exact traceExtending_ite _ (traceExtending_raiseExc _) (traceExtending_pure _)
            · intro _
              exact traceExtending_subscript stt_result "text"
        · exact traceExtending_pure _
      · intro query
        exact traceExtending_run_pipeline ag now _ query
  · intro e
    exact traceExtending_pure _

/-- When the voice agent always settles successfully with the payload
fields the orchestrator reads, and the language agent always settles
successfully, the pipeline middle always returns an envelope carrying
the four response keys — regardless of how the market, scraper, vector
and analyzer agents behave. -/
theorem run_pipeline_good (ag : Agents) (now : String) (rt q : Val)
    (hv : ∀ req, ∃ o, ag.voice_processor req = Except.ok o ∧
      hasKey o "error" = false ∧
      (∃ v, lookup o "text" = some v) ∧
      (∃ v, lookup o "audio_data" = some v) ∧
      (∃ v, lookup o "sample_rate" = some v))
    (hl : ∀ req, ∃ o, ag.language_processor req = Except.ok o) (t : Trace) :
    ∃ r u, run_pipeline ag now rt q t = (Except.ok r, u) ∧
      hasKey r "content" = true ∧ hasKey r "confidence" = true ∧
      hasKey r "sources" = true ∧ hasKey r "timestamp" = true := by
  obtain ⟨md, d1, hm, _⟩ := gmd_shape ag q t
  obtain ⟨cd, d2, hc, _⟩ := gc_shape ag q (t ++ d1)
  obtain ⟨ar, d3, ha, _⟩ := ad_shape ag md cd (t ++ d1 ++ d2)
  obtain ⟨o, ho⟩ := hl (briefReq q cd md ar)
  have hr := gr_lang_ok ag now q md cd ar (t ++ d1 ++ d2 ++ d3) o ho
  cases hrt : rt.isStr "voice" with
  | false =>
    refine ⟨[("content", getD o "brief" (Val.str "Unable to generate response")),
             ("confidence", getD o "confidence" (Val.num 0)),
             ("sources", getD o "sources" (Val.list [])),
             ("timestamp", Val.str now)],
      t ++ d1 ++ d2 ++ d3 ++
        [Event.issue Role.language (briefReq q cd md ar),
         Event.settle Role.language (briefReq q cd md ar)],
      ?_, rfl, rfl, rfl, rfl⟩
    unfold run_pipeline
    simp only [M_bind_apply, M_pure_apply, hm, hc, ha, hr, hrt]
    simp
  | true =>
    obtain ⟨o2, ho2, he2, _, ⟨av, hav⟩, ⟨sv, hsv⟩⟩ :=
      hv (ttsReq (getD o "brief" (Val.str "Unable to generate response")))
    refine ⟨insertKey (insertKey
        [("content", getD o "brief" (Val.str "Unable to generate response")),
         ("confidence", getD o "confidence" (Val.num 0)),
         ("sources", getD o "sources" (Val.list [])),
         ("timestamp", Val.str now)] "audio_data" av) "sample_rate" sv,
      t ++ d1 ++ d2 ++ d3 ++
        [Event.issue Role.language (briefReq q cd md ar),
         Event.settle Role.language (briefReq q cd md ar)] ++
        [Event.issue Role.voice (ttsReq (getD o "brief" (Val.str "Unable to generate response"))),
         Event.settle Role.voice (ttsReq (getD o "brief" (Val.str "Unable to generate response")))],
      ?_,
      hasKey_insertKey (hasKey_insertKey rfl),
      hasKey_insertKey (hasKey_insertKey rfl),
      hasKey_insertKey (hasKey_insertKey rfl),
      hasKey_insertKey (hasKey_insertKey rfl)⟩
    unfold run_pipeline
    simp only [M_bind_apply, M_pure_apply, hm, hc, ha, hr, hrt]
    simp [subscript, lookup, call, roleFn, ho2, he2, hav, hsv, M_bind_apply, M_pure_apply]

/-- Collaborators that all settle successfully with an empty dict. -/
def okAgents : Agents where
  market_data_agent := fun _ => Except.ok []
  web_scraper := fun _ => Except.ok []
  vector_store := fun _ => Except.ok []
  financial_analyzer := fun _ => Except.ok []
  language_processor := fun _ => Except.ok []
  voice_processor := fun _ => Except.ok []

/-- An obliging voice-agent response carrying every field either voice
direction reads. -/
def goodVoiceObj : Obj :=
  [("text", Val.str "transcribed"), ("audio_data", Val.list []),
   ("sample_rate", Val.num 16000)]

/-- The degraded-mode scenario of the spec: market data, scraping,
retrieval and analysis all raising, voice and narrative healthy. -/
def degradedAgents : Agents where
  market_data_agent := fun _ => Except.error "market down"
  web_scraper := fun _ => Except.error "scraper down"
  vector_store := fun _ => Except.error "vector down"
  financial_analyzer := fun _ => Except.error "analyzer down"
  language_processor := fun _ => Except.ok [("brief", Val.str "no data available")]
  voice_processor := fun _ => Except.ok goodVoiceObj

/-- A voice agent whose speech-to-text result reports an agent-level
error, everything else healthy. -/
def sttErrAgents : Agents where
  market_data_agent := fun _ => Except.ok []
  web_scraper := fun _ => Except.ok []
  vector_store := fun _ => Except.ok []
  financial_analyzer := fun _ => Except.ok []
  language_processor := fun _ => Except.ok []
  voice_processor := fun _ => Except.ok [("error", Val.str "bad audio")]

/-- Market-data behaviour whose quotes call raises while its earnings
call would succeed. -/
def quotesFailAgents : Agents where
  market_data_agent := fun req =>
    if (getD req "query_type" Val.vnone).isStr "stock_data" then
      Except.error "quotes down"
    else Except.ok [("earnings", Val.dict [("AAPL", Val.num 1)])]
  web_scraper := fun _ => Except.ok []
  vector_store := fun _ => Except.ok []
  financial_analyzer := fun _ => Except.ok []
  language_processor := fun _ => Except.ok []
  voice_processor := fun _ => Except.ok []

/-- Analyzer behaviour whose sentiment call raises while its risk and
earnings calls would succeed. -/
def sentimentFailAgents : Agents where
  market_data_agent := fun _ => Except.ok []
  web_scraper := fun _ => Except.ok []
  vector_store := fun _ => Except.ok []
  financial_analyzer := fun req =>
    if (getD req "analysis_type" Val.vnone).isStr "market_sentiment" then
      Except.error "sentiment down"
    else Except.ok [("ok", Val.bool true)]
  language_processor := fun _ => Except.ok []
  voice_processor := fun _ => Except.ok []

/-- A vector store that raises exactly for the query text `a`, with a
scraper that always returns one article. -/
def queryGatedAgents : Agents where
  market_data_agent := fun _ => Except.ok []
  web_scraper := fun _ => Except.ok [("articles", Val.list [Val.str "art"])]
  vector_store := fun req =>
    if (getD req "query" Val.vnone).isStr "a" then Except.error "vector down"
    else Except.ok [("results", Val.list [Val.str "doc"])]
  financial_analyzer := fun _ => Except.ok []
  language_processor := fun _ => Except.ok []
  voice_processor := fun _ => Except.ok []

/-- All six agent initializations returning `True`. -/
def allTrueInit : InitBehavior :=
  ⟨Except.ok true, Except.ok true, Except.ok true,
   Except.ok true, Except.ok true, Except.ok true⟩

/-- Five initializations returning `True`, the first returning `False`. -/
def oneFalseInit : InitBehavior :=
  ⟨Except.ok false, Except.ok true, Except.ok true,
   Except.ok true, Except.ok true, Except.ok true⟩

/-- A narrative agent that raises, every other collaborator healthy. -/
def langFailAgents : Agents :=
  { okAgents with language_processor := fun _ => Except.error "llm timeout" }

/-- C1: for every query request, whatever the behaviour of the
market-data, news-scraping, vector-retrieval and analysis collaborators
(any subset raising or returning error payloads), as long as the voice
and narrative calls settle normally, `process_query` returns a response
envelope containing the keys `content`, `confidence`, `sources` and
`timestamp`, and the computation settles with `Except.ok`: no exception
reaches the caller. -/
theorem C1_process_query_degraded_envelope (ag : Agents)
    (st : AgentOrchestrator) (now : String) (qd : Obj)
    (hinit : st.agents_initialized = true)
    (hv : ∀ req, ∃ o, ag.voice_processor req = Except.ok o ∧
      hasKey o "error" = false ∧
      (∃ v, lookup o "text" = some v) ∧
      (∃ v, lookup o "audio_data" = some v) ∧
      (∃ v, lookup o "sample_rate" = some v))
    (hl : ∀ req, ∃ o, ag.language_processor req = Except.ok o) :
    ∃ r u, process_query_m ag st now qd [] = (Except.ok r, u) ∧
      process_query ag st now qd = (r, u) ∧
      hasKey r "content" = true ∧ hasKey r "confidence" = true ∧
      hasKey r "sources" = true ∧ hasKey r "timestamp" = true := by
  cases hiv : (getD qd "input_type" (Val.str "text")).isStr "voice" with
  | false =>
    obtain ⟨r, u, heq, k1, k2, k3, k4⟩ :=
      run_pipeline_good ag now (getD qd "response_type" (Val.str "text"))
        (getD qd "query" (Val.str "")) hv hl []
    have hmq : process_query_m ag st now qd [] = (Except.ok r, u) := by
      unfold process_query_m
      simp [attempt_apply, M_bind_apply, M_pure_apply, hinit, hiv, heq]
    exact ⟨r, u, hmq, by unfold process_query; rw [hmq], k1, k2, k3, k4⟩
  | true =>
    obtain ⟨o1, ho1, he1, ⟨tv, htv⟩, _, _⟩ := hv (sttReq qd)
    obtain ⟨r, u, heq, k1, k2, k3, k4⟩ :=
      run_pipeline_good ag now (getD qd "response_type" (Val.str "text")) tv hv hl
        [Event.issue Role.voice (sttReq qd), Event.settle Role.voice (sttReq qd)]
    have hmq : process_query_m ag st now qd [] = (Except.ok r, u) := by
      unfold process_query_m
      simp [attempt_apply, M_bind_apply, M_pure_apply, hinit, hiv,
        call, roleFn, ho1, he1, subscript, htv, heq]
    exact ⟨r, u, hmq, by unfold process_query; rw [hmq], k1, k2, k3, k4⟩

/-- C1 witness: the fully degraded scenario — market, scraper, vector
and analyzer all raising — still yields a four-key envelope. -/
theorem C1_process_query_degraded_envelope_witness :
    ∃ r u, process_query_m degradedAgents ⟨true⟩ "T0" [] [] = (Except.ok r, u) ∧
      process_query degradedAgents ⟨true⟩ "T0" [] = (r, u) ∧
      hasKey r "content" = true ∧ hasKey r "confidence" = true ∧
      hasKey r "sources" = true ∧ hasKey r "timestamp" = true :=
  C1_process_query_degraded_envelope degradedAgents ⟨true⟩ "T0" [] rfl
    (fun _ => ⟨goodVoiceObj, rfl, rfl, ⟨Val.str "transcribed", rfl⟩,
      ⟨Val.list [], rfl⟩, ⟨Val.num 16000, rfl⟩⟩)
    (fun _ => ⟨[("brief", Val.str "no data available")], rfl⟩)

/-- C4: on a voice-input request whose speech-to-text call fails —
either with an error payload or by raising — `process_query` returns the
bare error envelope, and the trace shows the speech-to-text call was the
only agent call made: no gather, analysis or narrative call follows. -/
theorem C4_stt_failfast (ag : Agents) (st : AgentOrchestrator)
    (now : String) (qd : Obj)
    (hinit : st.agents_initialized = true)
    (hvt : lookup qd "input_type" = some (Val.str "voice"))
    (hfail : (∃ o, ag.voice_processor (sttReq qd) = Except.ok o ∧
        hasKey o "error" = true) ∨
      (∃ e, ag.voice_processor (sttReq qd) = Except.error e)) :
    ∃ m, process_query ag st now qd =
      ([("error", Val.str m)],
       [Event.issue Role.voice (sttReq qd), Event.settle Role.voice (sttReq qd)]) := by
  unfold process_query process_query_m
  rcases hfail with ⟨o, hok, herr⟩ | ⟨e, herr⟩
  · refine ⟨"Speech-to-text error: " ++ Val.toMsg (getD o "error" Val.vnone), ?_⟩
    simp [attempt_apply, M_bind_apply, M_pure_apply, call, roleFn, subscript,
      raiseExc, getD, hvt, hok, herr, hinit, Val.isStr]
  · refine ⟨e, ?_⟩
    simp [attempt_apply, M_bind_apply, M_pure_apply, call, roleFn, subscript,
      raiseExc, getD, hvt, herr, hinit, Val.isStr]

/-- C4 witness: a concrete voice request with an error-reporting
speech-to-text result aborts after that single call. -/
theorem C4_stt_failfast_witness :
    ∃ m, process_query sttErrAgents ⟨true⟩ "T0" [("input_type", Val.str "voice")] =
      ([("error", Val.str m)],
       [Event.issue Role.voice (sttReq [("input_type", Val.str "voice")]),
        Event.settle Role.voice (sttReq [("input_type", Val.str "voice")])]) :=
  C4_stt_failfast sttErrAgents ⟨true⟩ "T0" [("input_type", Val.str "voice")] rfl rfl
    (Or.inl ⟨[("error", Val.str "bad audio")], rfl, rfl⟩)

/-- C7: the Narrative Stage never propagates an exception: it always
settles with `Except.ok`; when the narrator call returns normally the
envelope carries the narrative text under `content` (defaulted when the
`brief` field is missing), `confidence` defaulting to 0, `sources`
defaulting to empty and the creation timestamp; when the narrator call
raises, the envelope carries the fixed apology string containing
"encountered an error while generating the response" plus the error
reason. -/
theorem C7_narrative_contract (ag : Agents) (now : String) (q : Val)
    (md cd ar : Obj) (t : Trace) :
    (∃ r u, generate_response ag now q md cd ar t = (Except.ok r, u)) ∧
    (∀ o, ag.language_processor (briefReq q cd md ar) = Except.ok o →
      generate_response ag now q md cd ar t =
        (Except.ok [("content", getD o "brief" (Val.str "Unable to generate response")),
                    ("confidence", getD o "confidence" (Val.num 0)),
                    ("sources", getD o "sources" (Val.list [])),
                    ("timestamp", Val.str now)],
         t ++ [Event.issue Role.language (briefReq q cd md ar),
               Event.settle Role.language (briefReq q cd md ar)])) ∧
    (∀ e, ag.language_processor (briefReq q cd md ar) = Except.error e →
      generate_response ag now q md cd ar t =
        (Except.ok
          [("content", Val.str "I apologize, but I encountered an error while generating the response."),
           ("error", Val.str e)],
         t ++ [Event.issue Role.language (briefReq q cd md ar),
               Event.settle Role.language (briefReq q cd md ar)])) := by
  refine ⟨?_, ?_, ?_⟩
  · obtain ⟨r, d, h, _, _⟩ := gr_shape ag now q md cd ar t
    exact ⟨r, t ++ d, h⟩
  · intro o ho
    exact gr_lang_ok ag now q md cd ar t o ho
  · intro e he
    exact gr_lang_err ag now q md cd ar t e he

/-- C7 witness: a raising narrator yields the apology envelope with the
error reason attached. -/
theorem C7_narrative_contract_witness :
    generate_response langFailAgents "T0" (Val.str "q") [] [] [] [] =
      (Except.ok
        [("content", Val.str "I apologize, but I encountered an error while generating the response."),
         ("error", Val.str "llm timeout")],
       [Event.issue Role.language (briefReq (Val.str "q") [] [] []),
        Event.settle Role.language (briefReq (Val.str "q") [] [] [])]) :=
  (C7_narrative_contract langFailAgents "T0" (Val.str "q") [] [] [] []).2.2
    "llm timeout" rfl

/-- C10: `process_query` substitutes defaults for absent request keys
instead of rejecting: a fully empty request behaves exactly like the
explicit empty text-in/text-out request, and each of the three keys
defaults independently (`query` to the empty string, `input_type` and
`response_type` to `text`). -/
theorem C10_request_defaults :
    (∀ (ag : Agents) (st : AgentOrchestrator) (now : String),
      process_query ag st now [] =
        process_query ag st now
          [("query", Val.str ""), ("input_type", Val.str "text"),
           ("response_type", Val.str "text")]) ∧
    (∀ (ag : Agents) (st : AgentOrchestrator) (now : String) (it rt : Val),
      process_query ag st now [("input_type", it), ("response_type", rt)] =
        process_query ag st now
          [("query", Val.str ""), ("input_type", it), ("response_type", rt)]) ∧
    (∀ (ag : Agents) (st : AgentOrchestrator) (now : String) (qv rt : Val),
      process_query ag st now [("query", qv), ("response_type", rt)] =
        process_query ag st now
          [("query", qv), ("input_type", Val.str "text"), ("response_type", rt)]) ∧
    (∀ (ag : Agents) (st : AgentOrchestrator) (now : String) (qv it : Val),
      process_query ag st now [("query", qv), ("input_type", it)] =
        process_query ag st now
          [("query", qv), ("input_type", it), ("response_type", Val.str "text")]) :=
  ⟨fun _ _ _ => rfl, fun _ _ _ _ _ => rfl, fun _ _ _ _ _ => rfl, fun _ _ _ _ _ => rfl⟩

theorem except_bind_ok {α β : Type} (a : α) (f : α → Except String β) :
    (Except.ok a >>= f) = f a := rfl

theorem except_bind_error {α β : Type} (e : String) (f : α → Except String β) :
    ((Except.error e : Except String α) >>= f) = Except.error e := rfl

/-- C5: `initialize` returns `True` exactly when every one of the six
agents' own initializations returns `True`; starting from an unset
readiness flag, a failed (or raising) initialization leaves the flag
equal to the returned value, hence unset; and any `process_query` call
made while the flag is unset returns the `Agents not initialized` error
envelope with an empty call trace — no pipeline stage runs. -/
theorem C5_initAgents_readiness (st : AgentOrchestrator) (b : InitBehavior) :
    ((initAgents st b).fst = true ↔
      (b.market_data_agent = Except.ok true ∧ b.web_scraper = Except.ok true ∧
       b.vector_store = Except.ok true ∧ b.financial_analyzer = Except.ok true ∧
       b.language_processor = Except.ok true ∧ b.voice_processor = Except.ok true)) ∧
    (st.agents_initialized = false →
      ((initAgents st b).snd).agents_initialized = (initAgents st b).fst) ∧
    (∀ (ag : Agents) (now : String) (qd : Obj), st.agents_initialized = false →
      process_query ag st now qd = ([("error", Val.str "Agents not initialized")], [])) := by
  refine ⟨?_, ?_, ?_⟩
  · cases hb1 : b.market_data_agent <;> cases hb2 : b.web_scraper <;>
      cases hb3 : b.vector_store <;> cases hb4 : b.financial_analyzer <;>
      cases hb5 : b.language_processor <;> cases hb6 : b.voice_processor <;>
      simp [initAgents, seqInit, hb1, hb2, hb3, hb4, hb5, hb6,
        except_bind_ok, except_bind_error, and_assoc]
  · intro h
    unfold initAgents
    cases hs : seqInit b <;> simp [h]
  · intro ag now qd h
    obtain ⟨flag⟩ := st
    simp only at h
    subst h
    rfl

/-- C5 witness: all-true initializations succeed; a single false one
leaves the flag equal to the false result; querying before any
initialization yields the not-initialized envelope and no calls. -/
theorem C5_initAgents_readiness_witness :
    (initAgents AgentOrchestrator.new allTrueInit).fst = true ∧
    ((initAgents AgentOrchestrator.new oneFalseInit).snd).agents_initialized =
      (initAgents AgentOrchestrator.new oneFalseInit).fst ∧
    process_query okAgents AgentOrchestrator.new "T0" [] =
      ([("error", Val.str "Agents not initialized")], []) :=
  ⟨(C5_initAgents_readiness AgentOrchestrator.new allTrueInit).1.mpr
      ⟨rfl, rfl, rfl, rfl, rfl, rfl⟩,
   (C5_initAgents_readiness AgentOrchestrator.new oneFalseInit).2.1 rfl,
   (C5_initAgents_readiness AgentOrchestrator.new allTrueInit).2.2 okAgents "T0" [] rfl⟩

/-- C6 counterexample: after a successful `initialize` the readiness
flag is set, but a subsequent `initialize` in which one agent returns
`False` resets the flag to `False`, contradicting the claim that no
sequence of later calls ever unsets it. -/
theorem C6_readiness_counterexample :
    ((initAgents AgentOrchestrator.new allTrueInit).snd).agents_initialized = true ∧
    ((initAgents (initAgents AgentOrchestrator.new allTrueInit).snd
        oneFalseInit).snd).agents_initialized = false :=
  ⟨rfl, rfl⟩

/-- C6 (amended): the readiness flag is false at construction; every
`initialize` call in which no agent raises overwrites the flag with the
AND of that call's six results — so a later partially-failing call
resets it to false; an `initialize` in which an agent raises leaves the
flag unchanged; and `cleanup` never touches it. -/
theorem C6_readiness_amended :
    AgentOrchestrator.new.agents_initialized = false ∧
    (∀ (st : AgentOrchestrator) (b : InitBehavior) (rs : List Bool),
      seqInit b = Except.ok rs →
      ((initAgents st b).snd).agents_initialized = rs.all (fun x => x)) ∧
    (∀ (st : AgentOrchestrator) (b : InitBehavior) (e : String),
      seqInit b = Except.error e → (initAgents st b).snd = st) ∧
    (∀ st : AgentOrchestrator, cleanupAgents st = st) := by
  refine ⟨rfl, ?_, ?_, fun _ => rfl⟩
  · intro st b rs h
    unfold initAgents
    rw [h]
  · intro st b e h
    unfold initAgents
    rw [h]

/-- C6 witness for the amended claim: a non-raising all-true
initialization writes the AND of its results into the flag. -/
theorem C6_readiness_amended_witness :
    ((initAgents AgentOrchestrator.new allTrueInit).snd).agents_initialized =
      [true, true, true, true, true, true].all (fun x => x) :=
  C6_readiness_amended.2.1 AgentOrchestrator.new allTrueInit
    [true, true, true, true, true, true] rfl

/-- C2 counterexample: when the quotes sub-call raises while the
earnings sub-call would succeed, the market branch returns the empty
mapping: neither `market_data` nor `earnings_data` is present, the
successful sibling's result is lost, and the earnings call is not even
issued (the trace holds only the quotes call) — contradicting the claim
that each failing sub-call's key defaults independently while the other
keys still carry their successful results. -/
theorem C2_gather_counterexample :
    quotesFailAgents.market_data_agent earningsReq =
      Except.ok [("earnings", Val.dict [("AAPL", Val.num 1)])] ∧
    gather_market_data quotesFailAgents (Val.str "outlook") [] =
      (Except.ok [],
       [Event.issue Role.market stockReq, Event.settle Role.market stockReq]) ∧
    hasKey [] "earnings_data" = false ∧ hasKey [] "market_data" = false :=
  ⟨rfl, rfl, rfl, rfl⟩

/-- C2 (amended): each gather branch never raises; when both of its
sub-calls return normally the branch carries its two keys, each field
defaulting to empty when missing from the sub-call's payload; but when a
sub-call raises, the whole branch returns the empty mapping, dropping
both of its keys including a successful sibling's result. -/
theorem C2_gather_amended (ag : Agents) (q : Val) (t : Trace) :
    (∃ r d, gather_market_data ag q t = (Except.ok r, t ++ d)) ∧
    (∃ r d, gather_context ag q t = (Except.ok r, t ++ d)) ∧
    (∀ md ed, ag.market_data_agent stockReq = Except.ok md →
      ag.market_data_agent earningsReq = Except.ok ed →
      (gather_market_data ag q t).fst =
        Except.ok [("market_data", getD md "data" (Val.dict [])),
                   ("earnings_data", getD ed "earnings" (Val.dict []))]) ∧
    (∀ e, ag.market_data_agent stockReq = Except.error e →
      (gather_market_data ag q t).fst = Except.ok []) ∧
    (∀ md e, ag.market_data_agent stockReq = Except.ok md →
      ag.market_data_agent earningsReq = Except.error e →
      (gather_market_data ag q t).fst = Except.ok []) ∧
    (∀ nd vr, ag.web_scraper newsReq = Except.ok nd →
      ag.vector_store (vectorReq q) = Except.ok vr →
      (gather_context ag q t).fst =
        Except.ok [("news", getD nd "articles" (Val.list [])),
                   ("relevant_docs", getD vr "results" (Val.list []))]) ∧
    (∀ e, ag.web_scraper newsReq = Except.error e →
      (gather_context ag q t).fst = Except.ok []) ∧
    (∀ nd e, ag.web_scraper newsReq = Except.ok nd →
      ag.vector_store (vectorReq q) = Except.error e →
      (gather_context ag q t).fst = Except.ok []) := by
  refine ⟨?_, ?_, ?_, ?_, ?_, ?_, ?_, ?_⟩
  · obtain ⟨r, d, h, _⟩ := gmd_shape ag q t
    exact ⟨r, d, h⟩
  · obtain ⟨r, d, h, _⟩ := gc_shape ag q t
    exact ⟨r, d, h⟩
  · intro md ed h1 h2
    rw [gmd_ok ag q t md ed h1 h2]
  · intro e h1
    rw [gmd_err1 ag q t e h1]
  · intro md e h1 h2
    rw [gmd_err2 ag q t md e h1 h2]
  · intro nd vr h1 h2
    rw [gc_ok ag q t nd vr h1 h2]
  · intro e h1
    rw [gc_err1 ag q t e h1]
  · intro nd e h1 h2
    rw [gc_err2 ag q t nd e h1 h2]

/-- C2 witness for the amended claim: with all-ok collaborators both
branch mappings carry their keys, defaulted from the empty payloads. -/
theorem C2_gather_amended_witness :
    (gather_market_data okAgents (Val.str "q") []).fst =
      Except.ok [("market_data", Val.dict []), ("earnings_data", Val.dict [])] :=
  (C2_gather_amended okAgents (Val.str "q") []).2.2.1 [] [] rfl rfl

/-- C3 counterexample: when the sentiment analyzer call raises while
the risk and earnings calls would succeed, the whole Analysis Stage
returns the empty mapping — none of the three keys is present — and the
risk and earnings calls are never issued (the trace holds only the
sentiment call), contradicting the claim that one failing analysis call
neither prevents the other two nor aborts the stage. -/
theorem C3_analyze_counterexample :
    sentimentFailAgents.financial_analyzer (riskReq []) =
      Except.ok [("ok", Val.bool true)] ∧
    sentimentFailAgents.financial_analyzer (earningsAnalysisReq []) =
      Except.ok [("ok", Val.bool true)] ∧
    analyze_data sentimentFailAgents [] [] [] =
      (Except.ok [],
       [Event.issue Role.analyzer (sentimentReq [] []),
        Event.settle Role.analyzer (sentimentReq [] [])]) ∧
    hasKey [] "sentiment" = false ∧ hasKey [] "risk" = false ∧
    hasKey [] "earnings" = false :=
  ⟨rfl, rfl, rfl, rfl, rfl, rfl⟩

/-- C3 (amended): the Analysis Stage never raises; when all three
analyzer calls return normally (including error-payload results) the
stage stores each result under its own key; but when any analyzer call
raises, the stage catches it and returns the empty mapping, and the
calls after the raising one are not issued. -/
theorem C3_analyze_amended (ag : Agents) (md cd : Obj) (t : Trace) :
    (∃ r d, analyze_data ag md cd t = (Except.ok r, t ++ d)) ∧
    (∀ s r er, ag.financial_analyzer (sentimentReq md cd) = Except.ok s →
      ag.financial_analyzer (riskReq md) = Except.ok r →
      ag.financial_analyzer (earningsAnalysisReq md) = Except.ok er →
      (analyze_data ag md cd t).fst =
        Except.ok [("sentiment", Val.dict s), ("risk", Val.dict r),
                   ("earnings", Val.dict er)]) ∧
    (∀ e, ag.financial_analyzer (sentimentReq md cd) = Except.error e →
      analyze_data ag md cd t =
        (Except.ok [],
         t ++ [Event.issue Role.analyzer (sentimentReq md cd),
               Event.settle Role.analyzer (sentimentReq md cd)])) ∧
    (∀ s e, ag.financial_analyzer (sentimentReq md cd) = Except.ok s →
      ag.financial_analyzer (riskReq md) = Except.error e →
      analyze_data ag md cd t =
        (Except.ok [],
         t ++ [Event.issue Role.analyzer (sentimentReq md cd),
               Event.settle Role.analyzer (sentimentReq md cd),
               Event.issue Role.analyzer (riskReq md),
               Event.settle Role.analyzer (riskReq md)])) ∧
    (∀ s r e, ag.financial_analyzer (sentimentReq md cd) = Except.ok s →
      ag.financial_analyzer (riskReq md) = Except.ok r →
      ag.financial_analyzer (earningsAnalysisReq md) = Except.error e →
      (analyze_data ag md cd t).fst = Except.ok []) := by
  refine ⟨?_, ?_, ?_, ?_, ?_⟩
  · obtain ⟨r, d, h, _⟩ := ad_shape ag md cd t
    exact ⟨r, d, h⟩
  · intro s r er h1 h2 h3
    rw [ad_ok ag md cd t s r er h1 h2 h3]
  · intro e h1
    rw [ad_err1 ag md cd t e h1]
  · intro s e h1 h2
    rw [ad_err2 ag md cd t s e h1 h2]
  · intro s r e h1 h2 h3
    rw [ad_err3 ag md cd t s r e h1 h2 h3]

/-- C3 witness for the amended claim: all-ok analyzer calls produce the
three-key mapping. -/
theorem C3_analyze_amended_witness :
    (analyze_data okAgents [] [] []).fst =
      Except.ok [("sentiment", Val.dict []), ("risk", Val.dict []),
                 ("earnings", Val.dict [])] :=
  (C3_analyze_amended okAgents [] [] []).2.1 [] [] [] rfl rfl rfl

/-- C8 counterexample: in a run of the Analysis Stage with all calls
succeeding, only one call has been issued by the time the first call
settles — the three analyzer calls are not issued concurrently: the
second is issued only after the first has settled. -/
theorem C8_concurrency_counterexample :
    issuesBeforeFirstSettle (analyze_data okAgents [] [] []).snd = 1 ∧
    ¬ 3 ≤ issuesBeforeFirstSettle (analyze_data okAgents [] [] []).snd ∧
    (analyze_data okAgents [] [] []).snd =
      [Event.issue Role.analyzer (sentimentReq [] []),
       Event.settle Role.analyzer (sentimentReq [] []),
       Event.issue Role.analyzer (riskReq []),
       Event.settle Role.analyzer (riskReq []),
       Event.issue Role.analyzer (earningsAnalysisReq []),
       Event.settle Role.analyzer (earningsAnalysisReq [])] :=
  ⟨rfl, by decide, rfl⟩

/-- C8 (amended): all agent calls of a `process_query` run — the
Gatherer's branches and the Analysis Stage's calls included — are issued
strictly sequentially: the trace alternates issue/settle, so each call
settles before the next is issued, and every stage returns only after
every call it issued has settled. -/
theorem C8_sequential_amended (ag : Agents) (st : AgentOrchestrator)
    (now : String) (qd : Obj) :
    seqTrace (process_query ag st now qd).snd = true := by
  obtain ⟨res, d, h, hs⟩ := traceExtending_process_query_m ag st now qd []
  unfold process_query
  rw [h]
  cases res <;> simpa using hs

/-- Did this collaborator call settle by returning (rather than by
raising)? -/
def exOk : Except String Obj → Bool
  | Except.ok _ => true
  | Except.error _ => false

/-- C9 counterexample: with collaborator behaviour fixed, two different
query texts can yield different `news` values in the pipeline context:
a query-dependent vector-store failure empties the whole context branch,
discarding the news result that the other query keeps. -/
theorem C9_query_counterexample :
    gather_context queryGatedAgents (Val.str "a") [] =
      (Except.ok [],
       [Event.issue Role.scraper newsReq, Event.settle Role.scraper newsReq,
        Event.issue Role.vector (vectorReq (Val.str "a")),
        Event.settle Role.vector (vectorReq (Val.str "a"))]) ∧
    gather_context queryGatedAgents (Val.str "b") [] =
      (Except.ok [("news", Val.list [Val.str "art"]),
                  ("relevant_docs", Val.list [Val.str "doc"])],
       [Event.issue Role.scraper newsReq, Event.settle Role.scraper newsReq,
        Event.issue Role.vector (vectorReq (Val.str "b")),
        Event.settle Role.vector (vectorReq (Val.str "b"))]) ∧
    lookup [] "news" = none ∧
    lookup [("news", Val.list [Val.str "art"]),
            ("relevant_docs", Val.list [Val.str "doc"])] "news" =
      some (Val.list [Val.str "art"]) ∧
    (none : Option Val) ≠ some (Val.list [Val.str "art"]) :=
  ⟨rfl, rfl, rfl, rfl, fun h => Option.noConfusion h⟩

/-- C9 (amended): the market branch ignores the query entirely — it
issues identical requests and returns identical results for any two
queries; the news-scraping request itself contains no query-derived
data; and the `news` value is equal for two queries whenever the
query-dependent vector-store call settles the same way (return vs
raise) for both. -/
theorem C9_query_amended :
    (∀ (ag : Agents) (q1 q2 : Val) (t : Trace),
      gather_market_data ag q1 t = gather_market_data ag q2 t) ∧
    (∀ (ag : Agents) (q : Val) (t : Trace), ∃ d,
      (gather_context ag q t).snd = t ++ Event.issue Role.scraper newsReq :: d) ∧
    (∀ (ag : Agents) (q1 q2 : Val) (t : Trace) (r1 r2 : Obj) (u1 u2 : Trace),
      exOk (ag.vector_store (vectorReq q1)) = exOk (ag.vector_store (vectorReq q2)) →
      gather_context ag q1 t = (Except.ok r1, u1) →
      gather_context ag q2 t = (Except.ok r2, u2) →
      lookup r1 "news" = lookup r2 "news") := by
  refine ⟨fun _ _ _ _ => rfl, ?_, ?_⟩
  · intro ag q t
    cases h1 : ag.web_scraper newsReq with
    | error e =>
      exact ⟨[Event.settle Role.scraper newsReq], by rw [gc_err1 ag q t e h1]⟩
    | ok nd =>
      cases h2 : ag.vector_store (vectorReq q) with
      | error e =>
        exact ⟨[Event.settle Role.scraper newsReq,
                Event.issue Role.vector (vectorReq q),
                Event.settle Role.vector (vectorReq q)],
          by rw [gc_err2 ag q t nd e h1 h2]⟩
      | ok vr =>
        exact ⟨[Event.settle Role.scraper newsReq,
                Event.issue Role.vector (vectorReq q),
                Event.settle Role.vector (vectorReq q)],
          by rw [gc_ok ag q t nd vr h1 h2]⟩
  · intro ag q1 q2 t r1 r2 u1 u2 hstatus h1 h2
    cases hw : ag.web_scraper newsReq with
    | error e =>
      have e1 := (gc_err1 ag q1 t e hw).symm.trans h1
      have e2 := (gc_err1 ag q2 t e hw).symm.trans h2
      simp only [Prod.mk.injEq, Except.ok.injEq] at e1 e2
      rw [← e1.1, ← e2.1]
    | ok nd =>
      cases hv1 : ag.vector_store (vectorReq q1) with
      | ok vr1 =>
        cases hv2 : ag.vector_store (vectorReq q2) with
        | ok vr2 =>
          have e1 := (gc_ok ag q1 t nd vr1 hw hv1).symm.trans h1
          have e2 := (gc_ok ag q2 t nd vr2 hw hv2).symm.trans h2
          simp only [Prod.mk.injEq, Except.ok.injEq] at e1 e2
          rw [← e1.1, ← e2.1]
          rfl
        | error e2 =>
          rw [hv1, hv2] at hstatus
          simp [exOk] at hstatus
      | error e1 =>
        cases hv2 : ag.vector_store (vectorReq q2) with
        | ok vr2 =>
          rw [hv1, hv2] at hstatus
          simp [exOk] at hstatus
        | error e2 =>
          have e1x := (gc_err2 ag q1 t nd e1 hw hv1).symm.trans h1
          have e2x := (gc_err2 ag q2 t nd e2 hw hv2).symm.trans h2
          simp only [Prod.mk.injEq, Except.ok.injEq] at e1x e2x
          rw [← e1x.1, ← e2x.1]

/-- C9 witness for the amended claim: with a healthy vector store two
different queries yield the same `news` value. -/
theorem C9_query_amended_witness :
    lookup [("news", Val.list []), ("relevant_docs", Val.list [])] "news" =
      lookup [("news", Val.list []), ("relevant_docs", Val.list [])] "news" :=
  C9_query_amended.2.2 okAgents (Val.str "x") (Val.str "y") []
    [("news", Val.list []), ("relevant_docs", Val.list [])]
    [("news", Val.list []), ("relevant_docs", Val.list [])]
    [Event.issue Role.scraper newsReq, Event.settle Role.scraper newsReq,
     Event.issue Role.vector (vectorReq (Val.str "x")),
     Event.settle Role.vector (vectorReq (Val.str "x"))]
    [Event.issue Role.scraper newsReq, Event.settle Role.scraper newsReq,
     Event.issue Role.vector (vectorReq (Val.str "y")),
     Event.settle Role.vector (vectorReq (Val.str "y"))]
    rfl rfl rfl

end FinAssistant
